import Mathlib

/-
Verification of approx_post/losses.py: a shallow embedding of the loss /
gradient estimators (classes Loss, ReverseKL, ForwardKL) and proofs of the
behavioural properties stated for them.

Conventions of the embedding:
- batched tensors are nested lists of rationals (Vec, Mat, T3); the leading
  list level is always the batch axis, the next one the Monte-Carlo sample
  axis, exactly as in the source;
- Python runtime failures are values of PyErr; a function that can fail is
  embedded with an Except PyErr result;
- numpy whole-array operations (elementwise arithmetic, axis-1 max, sum and
  mean, broadcasting of a per-row scalar) are decomposed into per-row list
  operations, which is what they compute when the shapes line up;
- np.exp is modelled by an explicit function parameter pexp, because the real
  exponential is not computable; theorems only ever use the value of pexp at
  zero, where exp 0 = 1.
-/

set_option linter.unusedVariables false

namespace ApproxPost

/-- Kinds of Python runtime errors raised by the code under scrutiny. -/
inductive PyErr where
  | attributeError
  | valueError
  | typeError
  | nameError
  deriving DecidableEq

abbrev Vec := List ℚ
abbrev Mat := List Vec
abbrev T3 := List Mat

/-- np.sum along the last axis of one row. -/
def rowSum (r : Vec) : ℚ := r.sum

/-- np.mean along the last axis of one row (sum divided by length). -/
def rowMean (r : Vec) : ℚ := r.sum / r.length

/-- np.max along the last axis of one row (np.max of a nonempty row; on an
empty row numpy raises, here the value is the default 0 and theorems never
rely on it). -/
def rowMax (r : Vec) : ℚ := r.foldl max (r.headD 0)

/-- np.mean(-, axis=1) of a (batch, samples) array. -/
def meanAxis1 (m : Mat) : Vec := m.map rowMean

/-- Multiplication of a whole matrix by a scalar. -/
def scaleMat (c : ℚ) (g : Mat) : Mat := g.map (fun r => r.map (fun x => c * x))

/-- Elementwise sum of two matrices of equal shape. -/
def addMat (x y : Mat) : Mat := List.zipWith (fun r s => List.zipWith (· + ·) r s) x y

/-- np.einsum("m,mab->ab", c, v): the coefficient-weighted sum over the
leading component axis m of a (m, batch, samples) array. With an empty
component axis numpy would return zeros; the shape is not recoverable from
an empty list, so that case returns the empty matrix (never used). -/
def einsum_m_mab_ab (c : Vec) (v : T3) : Mat :=
  match c, v with
  | c0 :: cs, v0 :: vs => (List.zipWith scaleMat cs vs).foldl addMat (scaleMat c0 v0)
  | _, _ => []

/-- Embeds line 175 of ReverseKL._eval_selbo_reparameterisation:
loss = np.mean(np.einsum("m, mab->ab", coefficients, loss_samples), axis=1).
Note the absence of any -1 factor in the source line. -/
def selboLoss (coefficients : Vec) (loss_samples : T3) : Vec :=
  meanAxis1 (einsum_m_mab_ab coefficients loss_samples)

/-- Embeds line 176 of ReverseKL._eval_selbo_reparameterisation:
loss_del_phi = np.einsum("m, mab->ab", coefficients, loss_del_phi_samples).
Neither a -1 factor nor a mean over the sample axis appears in the source. -/
def selboGrad (coefficients : Vec) (loss_del_phi_samples : T3) : Mat :=
  einsum_m_mab_ab coefficients loss_del_phi_samples

/-- Modelled from the spec: the loss the specification prescribes for the
stratified path, namely the negative of the sample-axis mean of the
coefficient-combined per-sample estimates (loss = -estimate). Kept separate
from selboLoss, which embeds what the source actually computes. -/
def specSelboLoss (coefficients : Vec) (loss_samples : T3) : Vec :=
  (meanAxis1 (einsum_m_mab_ab coefficients loss_samples)).map (fun x => -x)

/-- Names bound in the class body of Loss (lines 5-80) followed by those of
ReverseKL (lines 82-181): attribute lookup on a ReverseKL instance falls
back to these. Neither _methods nor sample_base is among them. -/
def reverseKLClassAttrs : List String :=
  ["_default_num_samples", "__init__", "eval",
   "_eval_elbo_reparameterisation", "_eval_elbo_cv",
   "_eval_selbo_reparameterisation", "_eval_selbo_cv",
   "_compute_loss_del_params", "_apply_controlvariates",
   "_vectorise_controlvariate_input", "_compute_covariance",
   "_compute_controlvariate_samples", "_unvectorise_controlvariate_output",
   "_compute_joint_del_phi_reparameterisation",
   "_compute_approx_del_phi_reparameterisation"]

/-- Attribute lookup on a ReverseKL instance. -/
def rkHasAttr (n : String) : Bool := reverseKLClassAttrs.contains n

/-- The _methods attribute read by ReverseKL.__init__ at line 87. It is not
bound anywhere in the class hierarchy, so the lookup yields none; the some
branch is dead code (the value there is irrelevant). -/
def reverseKLMethodsAttr : Option (List String) :=
  if reverseKLClassAttrs.contains "_methods" then some [] else none

/-- The fields ReverseKL.__init__ would assign (lines 89-91). -/
structure ReverseKLState where
  joint : Option Unit
  use_reparameterisation : Bool
  method : String
  deriving DecidableEq

/-- Embeds ReverseKL.__init__ (lines 86-91): it evaluates
method.lower() not in self._methods; the attribute access self._methods
raises AttributeError when _methods is not found, otherwise an invalid
method raises ValueError and a valid one assigns the fields. -/
def reverseKLInit (jointdist : Option Unit) (use_reparameterisation : Bool)
    (method : String) : Except PyErr ReverseKLState :=
  match reverseKLMethodsAttr with
  | none => .error .attributeError
  | some methods =>
      if methods.contains method.toLower then
        .ok ⟨jointdist, use_reparameterisation, method⟩
      else
        .error .valueError

/-- The _default_num_samples table of ReverseKL (line 84). -/
def default_num_samples : List (String × Nat) :=
  [("elbo_cv", 1000), ("elbo_reparam", 100), ("selbo_reparam", 10), ("selbo_cv", 100)]

/-- Embeds the body of ReverseKL.eval (lines 93-114) for an instance whose
fields are method and use_reparameterisation, paired with the number of
collaborator sampling operations performed before the outcome.

Branch outcomes, traced from the source:
- elbo with reparameterisation: line 98 passes (approx, x, num_samples) to
  _eval_elbo_reparameterisation, declared at line 116 with parameters
  (self, approx, phi, x, num_samples) - one positional argument short, so
  Python raises TypeError before the body runs and before any sampling;
- elbo without reparameterisation: line 101 likewise passes three arguments
  to _eval_elbo_cv (line 136, four parameters beside self): TypeError;
- selbo with reparameterisation: _eval_selbo_reparameterisation (line 157)
  lacks a self parameter, so the bound call at line 105 binds approx := the
  ReverseKL instance itself; its first statement (line 159) then looks up
  sample_base on that instance, which has no such attribute (see
  reverseKLClassAttrs): AttributeError, and the real approximating
  distribution is never asked to sample (the branch guarded by rkHasAttr
  is dead code - the value there is irrelevant);
- selbo without reparameterisation: line 108 passes three arguments to
  _eval_selbo_cv, declared at line 180 with no parameters at all: TypeError;
- any other method: the else branch at lines 109-110 raises ValueError with
  no collaborator interaction at all.
In every branch the num_samples default is first resolved from the
_default_num_samples table exactly as at lines 97, 100, 104 and 107. -/
def reverseKLEvalBody (method : String) (use_reparameterisation : Bool)
    (num_samples : Option Nat) : Except PyErr (Vec × Mat) × Nat :=
  if method = "elbo" then
    if use_reparameterisation then
      let _ns : Nat := num_samples.getD ((default_num_samples.lookup "elbo_reparam").getD 0)
      (.error .typeError, 0)
    else
      let _ns : Nat := num_samples.getD ((default_num_samples.lookup "elbo_cv").getD 0)
      (.error .typeError, 0)
  else if method = "selbo" then
    if use_reparameterisation then
      let _ns : Nat := num_samples.getD ((default_num_samples.lookup "selbo_reparam").getD 0)
      (if rkHasAttr "sample_base" then (.ok ([], []), 1) else (.error .attributeError, 0))
    else
      let _ns : Nat := num_samples.getD ((default_num_samples.lookup "selbo_cv").getD 0)
      (.error .typeError, 0)
  else
    (.error .valueError, 0)

/-- An approximating-distribution collaborator as far as the parameter-space
gradient lifter can observe it: either it has the optional phi_del_params
capability or it does not (hasattr test at line 10). -/
structure ApproxModel where
  phi_del_params : Option Unit
  deriving DecidableEq

/-- Embeds Loss._compute_loss_del_params (lines 7-30). When the collaborator
has no phi_del_params attribute the input gradient is returned unchanged
(line 11). The else branch (lines 12-28) fails before producing a value: it
calls np.ndims, a name the numpy module does not export (the function is
np.ndim), raising AttributeError at line 15; the next line would also read
the unbound name phi_del_w. -/
def computeLossDelParams (loss_del_phi : Mat) (x : Mat) (approxdist : ApproxModel) :
    Except PyErr Mat :=
  match approxdist.phi_del_params with
  | none => .ok loss_del_phi
  | some _ => .error .attributeError

/-- Embeds Loss._vectorise_controlvariate_input (lines 46-49): after the
flatten, the body returns flattened.reshape(vectorised_shape, order=F), but
vectorised_shape is bound nowhere (the parameter is named new_shape), so
every call raises NameError. -/
def vectoriseControlvariateInput {α : Type} (val : α) (new_shape : Nat × Nat × Int) :
    Except PyErr T3 :=
  .error .nameError

/-- Outer product of two vectors, one (i, j) slice of
np.einsum("abi,abj->abij", -, -). -/
def outerVec (u v : Vec) : Mat := u.map (fun x => v.map (fun y => x * y))

/-- Sum of a list of equally shaped matrices (empty input gives the empty
matrix; numpy would keep the shape, which a list cannot represent). -/
def matListSum (l : List Mat) : Mat :=
  match l with
  | [] => []
  | h :: t => t.foldl addMat h

/-- Mean of a list of equally shaped matrices. -/
def matListMean (l : List Mat) : Mat := scaleMat (1 / (l.length : ℚ)) (matListSum l)

/-- Per-column means of a (samples, dim) matrix: np.mean(-, axis=1) one batch
slice at a time, used for the subtract_mean_from_val_2 branch. -/
def colMeans (m : Mat) : Vec :=
  (List.range ((m.headD []).length)).map (fun j => rowMean (m.map (fun r => r.getD j 0)))

/-- Embeds Loss._compute_covariance (lines 51-55):
np.mean(np.einsum("abi,abj->abij", val_1, val_2), axis=1), after optionally
de-meaning val_2 along the sample axis. -/
def computeCovariance (val_1 val_2 : T3) (subtract_mean_from_val_2 : Bool) : T3 :=
  let v2 := if subtract_mean_from_val_2 then
      val_2.map (fun mb =>
        let mu := colMeans mb
        mb.map (fun r => List.zipWith (fun a b => a - b) r mu))
    else val_2
  List.zipWith (fun m1 m2 => matListMean (List.zipWith outerVec m1 m2)) val_1 v2

/-- Embeds Loss._compute_controlvariate_samples (lines 57-60): after the
linear solve, the einsum at line 60 reads cv_vec, a name that is not among
the parameters (val_vec, cov, var) and is bound nowhere in the function, so
the call raises NameError. -/
def computeControlvariateSamples (val_vec : T3) (cov : T3) (var : T3) :
    Except PyErr T3 :=
  .error .nameError

/-- Embeds Loss._unvectorise_controlvariate_output (lines 62-64): the body is
the single statement pass, so the call returns None. -/
def unvectoriseControlvariateOutput {α : Type} (cv_samples : T3) (val : α) : Option α :=
  none

/-- Embeds Loss._apply_controlvariates (lines 32-44), chaining the helpers in
source order. The first statement already raises (see
vectoriseControlvariateInput), and were it repaired the final value would be
the None produced by the unvectorise placeholder. -/
def applyControlvariates {α β : Type} (val : α) (cv : β)
    (num_batch num_samples : Nat) : Except PyErr (Option α) := do
  let val_vec ← vectoriseControlvariateInput val (num_batch, num_samples, -1)
  let cv_vec ← vectoriseControlvariateInput cv (num_batch, num_samples, -1)
  let var := computeCovariance cv_vec cv_vec false
  let cov := computeCovariance cv_vec val_vec true
  let cv_samples ← computeControlvariateSamples val_vec cov var
  return unvectoriseControlvariateOutput cv_samples val

/-- One batch row of ForwardKL._compute_importance_samples (lines 190-195):
log weights joint minus approx, per-row max subtracted before pexp, product
with the samples, normalisation by the per-row sum of unnormalised weights. -/
def importanceRow (pexp : ℚ → ℚ) (s aRow bRow : Vec) : Vec :=
  let log_wts := List.zipWith (fun x y => x - y) bRow aRow
  let m := rowMax log_wts
  let unnorm_wts := log_wts.map (fun w => pexp (w - m))
  List.zipWith (fun w si => w * si / rowSum unnorm_wts) unnorm_wts s

/-- Embeds ForwardKL._compute_importance_samples (lines 190-195):
log_wts = joint_logprob - approx_logprob, per-batch max subtracted before
exponentiating (np.exp modelled by pexp), elementwise product with samples,
division by the per-batch sum of unnormalised weights. Every numpy operation
involved acts batch-row by batch-row, which is how the embedding states it. -/
def computeImportanceSamples (pexp : ℚ → ℚ)
    (samples approx_logprob joint_logprob : Mat) : Mat :=
  List.zipWith (fun (s : Vec) (ab : Vec × Vec) => importanceRow pexp s ab.1 ab.2)
    samples (approx_logprob.zip joint_logprob)

/-- Stand-in for np.exp in the scenarios below, where the exponential is only
ever evaluated at 0: any function whose value at 0 is 1, as with the real
exponential, produces identical results there. -/
def expApprox (q : ℚ) : ℚ := 1 + q

/-- Attributes assigned on every ForwardKL instance: __init__ (lines 185-188)
assigns joint, posterior_samples and use_reparameterisation unconditionally,
so hasattr(self, a) is true for each of these names regardless of whether
the stored value is None. -/
def fklInstanceAttrs : List String :=
  ["joint", "posterior_samples", "use_reparameterisation"]

/-- Attribute lookup on a ForwardKL instance. -/
def fklHasAttr (a : String) : Bool := fklInstanceAttrs.contains a

/-- Outcome of one ForwardKL.eval call: the result, the number of
collaborator sampling operations performed (approx.sample or
approx.sample_base), and the total number of completed collaborator calls. -/
structure FKLTrace where
  result : Except PyErr Unit
  sampleCalls : Nat
  collabCalls : Nat

/-- Embeds ForwardKL.eval (lines 197-214) for an instance with the given
joint and posterior_samples fields, tracing collaborator usage.

Path facts, traced from the source:
- the entry guard at line 199 tests hasattr, not None-ness, and __init__
  assigns both attributes unconditionally, so the guard condition is always
  false and the ValueError branch is unreachable;
- line 202 calls approx.phi(x): one completed collaborator call on every
  path past the guard;
- posterior_samples present: line 205 passes (approx, phi) to
  _eval_posterior_samples, declared at line 216 with parameters
  (self, approxdist, phi, x, num_samples) - two positional arguments short:
  TypeError;
- no posterior samples, use_reparameterisation true: _eval_reparameterisation
  (lines 223-244) performs approx.sample_base, approx.transform,
  approx.logprob and approx.transform_del_2 (collaborator calls two to five,
  one of them a sampling operation), then line 232 reaches
  self.joint.logprob_del_1 inside _compute_joint_del_phi_reparameterisation;
  with joint = None that attribute access raises AttributeError. With a
  joint present the continuation depends on the approximating collaborator
  (the mixture-component attributes read at lines 77-78 and the shapes fed
  to the einsums), which no property below constrains: it is abstracted by
  the componentPath argument;
- no posterior samples, use_reparameterisation false: line 210 passes four
  arguments to _eval_controlvariates, declared at line 246 with parameters
  (self, approx, phi, x, num_samples, return_grad) - one short: TypeError,
  raised after the phi call and before any sampling. -/
def forwardKLEvalBody (joint posterior_samples : Option Unit)
    (use_reparameterisation : Bool) (componentPath : FKLTrace) : FKLTrace :=
  if (!fklHasAttr "joint") && (!fklHasAttr "posterior_samples") then
    ⟨.error .valueError, 0, 0⟩
  else
    match posterior_samples with
    | some _ => ⟨.error .typeError, 0, 1⟩
    | none =>
        if use_reparameterisation then
          match joint with
          | none => ⟨.error .attributeError, 1, 5⟩
          | some _ => componentPath
        else
          ⟨.error .typeError, 0, 1⟩

/-- Elementwise subtraction of a row from itself yields a row of zeros of the
same length. -/
theorem zipWith_sub_self (l : Vec) :
    List.zipWith (fun x y => x - y) l l = List.replicate l.length (0 : ℚ) := by
  induction l with
  | nil => rfl
  | cons a t ih => simp [List.replicate, ih]

/-- Folding max over a row of zeros starting from zero stays zero. -/
theorem foldl_max_zero (n : Nat) :
    List.foldl max (0 : ℚ) (List.replicate n 0) = 0 := by
  induction n with
  | zero => rfl
  | succ m ih => simp [List.replicate, ih]

/-- The per-row maximum of a row of zeros is zero. -/
theorem rowMax_replicate_zero (n : Nat) :
    rowMax (List.replicate n (0 : ℚ)) = 0 := by
  cases n with
  | zero => rfl
  | succ m => simp [rowMax, List.replicate, foldl_max_zero]

/-- The per-row sum of a row of ones is the row length. -/
theorem rowSum_replicate_one (n : Nat) :
    rowSum (List.replicate n (1 : ℚ)) = n := by
  simp [rowSum, List.sum_replicate, nsmul_eq_mul]

/-- Weighting by a row of unit weights reduces the normalised combination to
division by the normaliser. -/
theorem zipWith_replicate_one_left (k : ℚ) (s : Vec) :
    List.zipWith (fun w si => w * si / k) (List.replicate s.length (1 : ℚ)) s
      = s.map (fun x => x / k) := by
  induction s with
  | nil => rfl
  | cons a t ih => simp [List.replicate, ih]

/-- Summing a row divided elementwise by a constant divides the sum. -/
theorem sum_map_div (l : Vec) (c : ℚ) :
    (l.map (fun x => x / c)).sum = l.sum / c := by
  induction l with
  | nil => simp
  | cons a t ih => simp [ih, add_div]

/-- One batch row of the importance-weighting operation with identical log
weights returns the samples divided by the sample count. -/
theorem importanceRow_equal_weights (pexp : ℚ → ℚ) (s l : Vec)
    (hexp : pexp 0 = 1) (hl : l.length = s.length) :
    importanceRow pexp s l l = s.map (fun x => x / (s.length : ℚ)) := by
  have h0 : List.zipWith (fun x y => x - y) l l = List.replicate l.length (0 : ℚ) :=
    zipWith_sub_self l
  simp only [importanceRow, h0, rowMax_replicate_zero, List.map_replicate, sub_zero,
    hexp, rowSum_replicate_one, hl]
  exact zipWith_replicate_one_left _ s

/-- The importance-weighting operation distributes over a batch row pushed on
the front of each operand. -/
theorem computeImportanceSamples_cons (pexp : ℚ → ℚ) (s a b : Vec)
    (sT aT bT : Mat) :
    computeImportanceSamples pexp (s :: sT) (a :: aT) (b :: bT)
      = importanceRow pexp s a b :: computeImportanceSamples pexp sT aT bT := rfl

/-- Claim C10: for every combination of constructor arguments (any jointdist,
any use_reparameterisation, any method string, including the valid elbo and
selbo), constructing a ReverseKL instance raises AttributeError, because the
validation at line 87 reads the _methods attribute, defined nowhere in the
class hierarchy; hence no ReverseKL.eval call is ever reachable. -/
theorem reverseKLInit_always_attribute_error (jointdist : Option Unit)
    (use_reparameterisation : Bool) (method : String) :
    reverseKLInit jointdist use_reparameterisation method = .error .attributeError := rfl

/-- Claim C1 (code side): no estimator configuration of ReverseKL ever
produces the (loss, gradient) pair over which the unbiasedness invariant
could range - construction errors for every argument combination, and even
the eval dispatch body taken on its own errors on both valid methods for
either gradient mechanism, so eval never returns a gradient whose
expectation could be compared with the true gradient. -/
theorem reverseKL_never_yields_estimate (jointdist : Option Unit) (b : Bool)
    (method : String) (ns : Option Nat) :
    (∃ e, reverseKLInit jointdist b method = .error e) ∧
    (∃ e, (reverseKLEvalBody "elbo" b ns).1 = .error e) ∧
    (∃ e, (reverseKLEvalBody "selbo" b ns).1 = .error e) := by
  refine ⟨⟨.attributeError, rfl⟩, ?_, ?_⟩ <;> cases b
  · exact ⟨.typeError, rfl⟩
  · exact ⟨.typeError, rfl⟩
  · exact ⟨.typeError, rfl⟩
  · exact ⟨.attributeError, rfl⟩

/-- Claim C2 (code side): for both valid methods and either value of
use_reparameterisation, the body of ReverseKL.eval raises - TypeError on the
elbo branches and on the stratified control-variate branch, AttributeError
on the stratified reparameterisation branch - instead of returning a loss of
shape (num_batch,) with its gradient. -/
theorem reverseKLEvalBody_valid_methods_error (b : Bool) (ns : Option Nat) :
    (reverseKLEvalBody "elbo" b ns).1 = .error .typeError ∧
    (reverseKLEvalBody "selbo" b ns).1
      = .error (if b then PyErr.attributeError else PyErr.typeError) := by
  cases b <;> exact ⟨rfl, rfl⟩

/-- Claim C3: for every method string outside the set of elbo and selbo, the
eval dispatch raises the rejected-argument ValueError of lines 109-110, and
the number of collaborator sampling operations invoked before the rejection
is zero. -/
theorem reverseKLEvalBody_invalid_method_rejects (method : String) (b : Bool)
    (ns : Option Nat) (h1 : method ≠ "elbo") (h2 : method ≠ "selbo") :
    reverseKLEvalBody method b ns = (.error .valueError, 0) := by
  unfold reverseKLEvalBody
  rw [if_neg h1, if_neg h2]

/-- Witness for claim C3 at the concrete invalid method string foo. -/
theorem reverseKLEvalBody_invalid_method_rejects_witness :
    "foo" ≠ "elbo" ∧ "foo" ≠ "selbo" ∧
    reverseKLEvalBody "foo" true none = (.error .valueError, 0) :=
  ⟨by decide, by decide,
    reverseKLEvalBody_invalid_method_rejects "foo" true none (by decide) (by decide)⟩

/-- Claim C4 (code side): with both jointdist and posterior_samples absent,
eval is not rejected at entry - the hasattr guard of line 199 sees both
attribute names present because the constructor assigns them unconditionally
- and the call proceeds to the collaborators: with reparameterisation it
performs one sampling operation among five collaborator calls before dying
with AttributeError on the None joint, and without reparameterisation it
calls approx.phi and then raises TypeError; neither path produces the
rejected-argument ValueError the claim requires. -/
theorem forwardKL_missing_both_not_rejected_at_entry (componentPath : FKLTrace) :
    (fklHasAttr "joint" = true ∧ fklHasAttr "posterior_samples" = true) ∧
    forwardKLEvalBody none none true componentPath = ⟨.error .attributeError, 1, 5⟩ ∧
    forwardKLEvalBody none none false componentPath = ⟨.error .typeError, 0, 1⟩ :=
  ⟨⟨rfl, rfl⟩, rfl, rfl⟩

/-- Claim C5 (code side): the stratified path does not negate its estimate -
at coefficients [1] and per-sample estimates [[[2]]] the source formula of
line 175 yields loss [2], whereas the loss prescribed by the specification
(the negative of the sample-axis mean) is [-2]. -/
theorem selboLoss_sign_flipped :
    selboLoss [1] [[[2]]] = [2] ∧ specSelboLoss [1] [[[2]]] = [-2] ∧
    ([2] : Vec) ≠ [-2] := by
  refine ⟨?_, ?_, ?_⟩ <;>
    norm_num [selboLoss, specSelboLoss, meanAxis1, einsum_m_mab_ab, scaleMat,
      rowMean, rowSum]

/-- Claim C6: the stratified combination step (line 176) composes
per-component gradients by the coefficient-weighted sum over the leading
component axis m; with coefficients [0.3, 0.7] the composed gradient equals
exactly 0.3 times g1 plus 0.7 times g2, for all per-component gradient
tensors g1 and g2. -/
theorem selboGrad_mixture_weighted_sum (g1 g2 : Mat) :
    selboGrad [3/10, 7/10] [g1, g2]
      = addMat (scaleMat (3/10) g1) (scaleMat (7/10) g2) := rfl

/-- Claim C7 (code side): applying the control-variate reduction to a value
with an empty control variate (dim_cv = 0, here num_batch 1 and num_samples
2) does not return the value unchanged - the call raises NameError. -/
theorem applyControlvariates_raises_not_identity :
    applyControlvariates ([[1, 2]] : Mat) ([[([] : Vec), []]] : T3) 1 2
        = .error .nameError ∧
      applyControlvariates ([[1, 2]] : Mat) ([[([] : Vec), []]] : T3) 1 2
        ≠ .ok (some [[1, 2]]) := by
  refine ⟨rfl, fun h => ?_⟩
  rw [show applyControlvariates ([[1, 2]] : Mat) ([[([] : Vec), []]] : T3) 1 2
      = Except.error PyErr.nameError from rfl] at h
  exact Except.noConfusion h

/-- Claim C8 (counterexample to the claim as stated): at samples [[1, 3]]
with identical log-weight operands [[5, 7]], the operation returns the
weighted samples [[1/2, 3/2]], which do not equal the per-batch sample mean
2 of the input samples. -/
theorem computeImportanceSamples_not_pointwise_mean :
    computeImportanceSamples expApprox [[1, 3]] [[5, 7]] [[5, 7]] = [[1 / 2, 3 / 2]] ∧
    computeImportanceSamples expApprox [[1, 3]] [[5, 7]] [[5, 7]]
      ≠ [[rowMean [1, 3], rowMean [1, 3]]] := by
  have h : computeImportanceSamples expApprox [[1, 3]] [[5, 7]] [[5, 7]]
      = [[1 / 2, 3 / 2]] := by
    norm_num [computeImportanceSamples, importanceRow, expApprox, rowMax, rowSum]
  refine ⟨h, ?_⟩
  rw [h]
  norm_num [rowMean, rowSum]

/-- Claim C8 (amended): the operation computes log weights as joint minus
approx, subtracts the per-batch maximum before exponentiating and normalises
by the per-batch sum of unnormalised weights - and with identical log-weight
operands it returns the input samples divided by the per-batch sample count,
so that the per-batch sum of the returned weighted samples (not each
individual entry) equals the per-batch sample mean of the input samples. -/
theorem computeImportanceSamples_equal_weights (pexp : ℚ → ℚ) (samples lw : Mat)
    (hexp : pexp 0 = 1)
    (hshape : List.Forall₂ (fun r s => r.length = s.length) lw samples) :
    computeImportanceSamples pexp samples lw lw
        = samples.map (fun s => s.map (fun x => x / (s.length : ℚ))) ∧
      (computeImportanceSamples pexp samples lw lw).map rowSum
        = samples.map rowMean := by
  have h1 : computeImportanceSamples pexp samples lw lw
      = samples.map (fun s => s.map (fun x => x / (s.length : ℚ))) := by
    induction hshape with
    | nil => rfl
    | cons hr ht ih =>
        rw [computeImportanceSamples_cons, ih,
          importanceRow_equal_weights pexp _ _ hexp hr, List.map_cons]
  refine ⟨h1, ?_⟩
  rw [h1, List.map_map]
  have h2 : ∀ ms : Mat,
      ms.map (rowSum ∘ fun s => s.map (fun x => x / (s.length : ℚ)))
        = ms.map rowMean := by
    intro ms
    induction ms with
    | nil => rfl
    | cons s t ih => simp [Function.comp, rowSum, rowMean, sum_map_div, ih]
  exact h2 samples

/-- Witness for the amended claim C8 at a concrete equal-weights input. -/
theorem computeImportanceSamples_equal_weights_witness :
    expApprox 0 = 1 ∧
    List.Forall₂ (fun (r s : Vec) => r.length = s.length) [[5, 7]] [[1, 3]] ∧
    computeImportanceSamples expApprox [[1, 3]] [[5, 7]] [[5, 7]] = [[1 / 2, 3 / 2]] := by
  have hexp : expApprox 0 = 1 := by norm_num [expApprox]
  have hshape : List.Forall₂ (fun (r s : Vec) => r.length = s.length) [[5, 7]] [[1, 3]] :=
    List.Forall₂.cons rfl List.Forall₂.nil
  refine ⟨hexp, hshape, ?_⟩
  refine ((computeImportanceSamples_equal_weights expApprox [[1, 3]] [[5, 7]]
    hexp hshape).1).trans ?_
  norm_num

/-- Claim C9: when the approximating collaborator declares no phi_del_params
capability, the parameter-space gradient lifting is the identity - the
returned loss_del_params is exactly the input loss_del_phi. -/
theorem computeLossDelParams_identity (loss_del_phi : Mat) (x : Mat)
    (a : ApproxModel) (h : a.phi_del_params = none) :
    computeLossDelParams loss_del_phi x a = .ok loss_del_phi := by
  unfold computeLossDelParams
  rw [h]

/-- Witness for claim C9 at a concrete gradient and capability-free
collaborator. -/
theorem computeLossDelParams_identity_witness :
    (ApproxModel.mk none).phi_del_params = none ∧
    computeLossDelParams [[1, 2]] [[0]] (ApproxModel.mk none) = .ok [[1, 2]] :=
  ⟨rfl, computeLossDelParams_identity [[1, 2]] [[0]] (ApproxModel.mk none) rfl⟩

end ApproxPost
